import Mathlib

/-!
# Verification of the resilient call executor (ErrorHandler)

Shallow embedding of the client-side resilience utility: error tracking,
rate limiting, retry with exponential backoff, circuit breaking, error
classification, statistics and maintenance operations.  JavaScript `Map`s
become association lists over `String` keys (insertion order preserved, as
in a JS `Map`); timestamps are `Int` milliseconds; fractional delay
arithmetic is over `ℚ`; the caller-supplied asynchronous operation becomes
a script `Nat → Except JSError α` giving the outcome of each attempt, and
`Date.now()` becomes explicit time parameters.
-/

/-- An error value as thrown by the wrapped operation: a message (possibly
absent, as `error.message` may be `undefined`) and an optional HTTP-like
status code. -/
structure JSError where
  message : Option String
  status : Option Int
deriving DecidableEq

/-- The error detail object passed to `trackError` (the retry loop builds
one with `type`, `message` and `status` fields). -/
structure TrackedError where
  type : Option String
  message : Option String
  status : Option Int
deriving DecidableEq

/-- Per-key error tracking record: `\x7b count, firstError, lastError \x7d`. -/
structure ErrorTracking where
  count : Nat
  firstError : Int
  lastError : Int
deriving DecidableEq

/-- Per-operation rate-limit window:
`\x7b count, resetTime, windowMs, maxRequests \x7d`. -/
structure RateLimitEntry where
  count : Nat
  resetTime : Int
  windowMs : Int
  maxRequests : Nat
deriving DecidableEq

/-- Entry of the `lastErrors` map: `\x7b error, timestamp, count \x7d`. -/
structure LastErrorEntry where
  error : TrackedError
  timestamp : Int
  count : Nat
deriving DecidableEq

/-- The whole mutable state of the `ErrorHandler` singleton: the three maps
`errorCounts`, `rateLimits` and `lastErrors` (the fourth map
`retryStrategies` of the constructor is never read or written anywhere in
the source, so it is omitted). -/
structure HandlerState where
  errorCounts : List (String × ErrorTracking)
  rateLimits : List (String × RateLimitEntry)
  lastErrors : List (String × LastErrorEntry)
deriving DecidableEq

/-- The state of a freshly constructed handler: all maps empty. -/
def emptyState : HandlerState := ⟨[], [], []⟩

/-- `Map.get`: first (and, for states built through `Map.set`, only)
binding of the key. -/
def lookupKey {α : Type} : List (String × α) → String → Option α
  | [], _ => none
  | p :: rest, key => if p.1 = key then some p.2 else lookupKey rest key

/-- `Map.set`: replace the binding in place if the key is present,
otherwise append it at the end (JS `Map` insertion-order semantics). -/
def setKey {α : Type} : List (String × α) → String → α → List (String × α)
  | [], key, v => [(key, v)]
  | p :: rest, key, v => if p.1 = key then (key, v) :: rest else p :: setKey rest key v

/-- `Map.delete`: remove the binding of the key. -/
def delKey {α : Type} : List (String × α) → String → List (String × α)
  | [], _ => []
  | p :: rest, key => if p.1 = key then delKey rest key else p :: delKey rest key

/-- Delete every binding whose key satisfies `q` (models the
iterate-and-delete loops of `clearErrors`). -/
def dropKeysWith {α : Type} (q : String → Bool) : List (String × α) → List (String × α)
  | [] => []
  | p :: rest => if q p.1 then dropKeysWith q rest else p :: dropKeysWith q rest

/-- `charsStart s p`: the char list `s` starts with `p`. -/
def charsStart : List Char → List Char → Bool
  | _, [] => true
  | [], _ :: _ => false
  | a :: s, b :: p => if a = b then charsStart s p else false

/-- `charsContain s sub`: `sub` occurs contiguously inside `s`. -/
def charsContain : List Char → List Char → Bool
  | [], sub => sub.isEmpty
  | c :: rest, sub => charsStart (c :: rest) sub || charsContain rest sub

/-- JavaScript `String.prototype.includes`. -/
def strContains (s sub : String) : Bool := charsContain s.data sub.data

/-- JavaScript `String.prototype.startsWith`. -/
def strStartsWith (s p : String) : Bool := charsStart s.data p.data

/-- `error.message?.includes(sub)`: `false` when the message is absent. -/
def msgIncludes (m : Option String) (sub : String) : Bool :=
  match m with
  | none => false
  | some s => strContains s sub

/-- `error.status >= n` under JS semantics: `false` when `status` is
`undefined` (`undefined >= n` is `false`). -/
def statusGe (st : Option Int) (n : Int) : Bool :=
  match st with
  | none => false
  | some s => decide (n ≤ s)

/-- `getErrorType`: deterministic error classification; the four
message-substring checks run first, in source order, then the status-code
checks, with fallback `general`. -/
def getErrorType (e : JSError) : String :=
  if msgIncludes e.message "rate limit" then "rate_limit"
  else if msgIncludes e.message "network" then "network"
  else if msgIncludes e.message "authentication" then "auth"
  else if msgIncludes e.message "permission" then "permission"
  else if e.status = some 401 then "auth"
  else if e.status = some 403 then "permission"
  else if e.status = some 404 then "not_found"
  else if e.status = some 429 then "rate_limit"
  else if statusGe e.status 500 then "server"
  else "general"

/-- `shouldNotRetry`: membership of the classification in the source's
`noRetryErrors` array, which is literally
`['authentication', 'permission', 'not_found']`. -/
def shouldNotRetry (e : JSError) : Bool :=
  decide (getErrorType e ∈ ["authentication", "permission", "not_found"])

/-- `error.type || 'general'`: JS `||` treats both `undefined` and the
empty string as falsy. -/
def jsTypeOrGeneral : Option String → String
  | none => "general"
  | some t => if t = "" then "general" else t

/-- The composite tracking key built by `trackError`:
`` `$\x7boperation\x7d_$\x7berror.type || 'general'\x7d` ``. -/
def trackKey (operation ty : String) : String := operation ++ "_" ++ ty

/-- `trackError(operation, error)` at time `now`: create or bump the
`errorCounts` record under the composite key and store the error detail in
`lastErrors` under the same key. -/
def trackError (s : HandlerState) (operation : String) (e : TrackedError) (now : Int) :
    HandlerState :=
  let key := trackKey operation (jsTypeOrGeneral e.type)
  let tracking :=
    match lookupKey s.errorCounts key with
    | none => ErrorTracking.mk 1 now now
    | some t => ErrorTracking.mk (t.count + 1) t.firstError now
  { s with
    errorCounts := setKey s.errorCounts key tracking,
    lastErrors := setKey s.lastErrors key (LastErrorEntry.mk e now tracking.count) }

/-- `isRateLimited(operation)` at time `now`: limited iff a window exists
and `now < limit.resetTime` — the request count is not consulted. -/
def isRateLimited (s : HandlerState) (operation : String) (now : Int) : Bool :=
  match lookupKey s.rateLimits operation with
  | none => false
  | some limit => decide (now < limit.resetTime)

/-- `applyRateLimit(operation, windowMs, maxRequests)` at time `now`
(source defaults: `windowMs = 60000`, `maxRequests = 10`).  Returns the
boolean result together with the updated state.  On window reset only
`count` and `resetTime` are written; the stored `windowMs`/`maxRequests`
fields keep their original values, as in the source. -/
def applyRateLimit (s : HandlerState) (operation : String) (windowMs : Int)
    (maxRequests : Nat) (now : Int) : Bool × HandlerState :=
  match lookupKey s.rateLimits operation with
  | none =>
    let fresh := RateLimitEntry.mk 1 (now + windowMs) windowMs maxRequests
    (false, { s with rateLimits := setKey s.rateLimits operation fresh })
  | some limit =>
    if limit.resetTime ≤ now then
      let reset := { limit with count := 1, resetTime := now + windowMs }
      (false, { s with rateLimits := setKey s.rateLimits operation reset })
    else if limit.maxRequests ≤ limit.count then
      (true, s)
    else
      let bumped := { limit with count := limit.count + 1 }
      (false, { s with rateLimits := setKey s.rateLimits operation bumped })

/-- The error count read by `getRetryDelay`:
`tracking ? tracking.count : 0` for the entry at the given (plain) key. -/
def errorCountAt (s : HandlerState) (key : String) : Nat :=
  match lookupKey s.errorCounts key with
  | none => 0
  | some t => t.count

/-- `getRetryDelay(operation, attempt, maxDelay)`: the base delay is the
local constant `1000` (the `baseDelay` option of `retryOperation` is never
passed in); `jitter` stands for the value of `Math.random() * 1000`, so it
lies in `[0, 1000)`. -/
def getRetryDelay (s : HandlerState) (operation : String) (attempt : Nat)
    (maxDelay jitter : ℚ) : ℚ :=
  let baseDelay : ℚ := 1000
  let errorCount := errorCountAt s operation
  let delay := min (baseDelay * 2 ^ attempt + jitter) maxDelay
  let errorMultiplier : ℚ := min (errorCount : ℚ) 5
  delay * (1 + errorMultiplier * (1 / 10))

/-- The options object of `retryOperation`, with the source's defaults
`maxRetries = 3`, `baseDelay = 1000`, `maxDelay = 30000`,
`circuitBreakerThreshold = 5`, `circuitBreakerTimeout = 60000`,
`operationName = 'unknown'`. -/
structure RetryOptions where
  maxRetries : Nat
  baseDelay : ℚ
  maxDelay : ℚ
  circuitBreakerThreshold : Nat
  circuitBreakerTimeout : Int
  operationName : String
deriving DecidableEq

/-- The source's default options. -/
def defaultOptions : RetryOptions := ⟨3, 1000, 30000, 5, 60000, "unknown"⟩

/-- The delay actually computed inside the attempt loop:
`this.getRetryDelay(key, attempt, maxDelay)` with `key = operationName` —
note that `options.baseDelay` does not flow into it. -/
def retryDelayOfOptions (options : RetryOptions) (s : HandlerState) (attempt : Nat)
    (jitter : ℚ) : ℚ :=
  getRetryDelay s options.operationName attempt options.maxDelay jitter

/-- How a `retryOperation` call ends: the operation's value, one of the two
fast-fail errors, or the last operation error after the loop. -/
inductive RunOutcome (α : Type) where
  | ok (value : α)
  | circuitOpen
  | rateLimited
  | failed (e : JSError)
deriving DecidableEq

/-- Result of running `retryOperation`: the outcome, the final handler
state, and how many times the caller-supplied operation was invoked. -/
structure RunResult (α : Type) where
  outcome : RunOutcome α
  state : HandlerState
  calls : Nat
deriving DecidableEq

/-- The `for (attempt = 0; attempt <= maxRetries; ...)` loop of
`retryOperation`.  `remaining = maxRetries - attempt` counts the attempts
still allowed after the current one; `op a` is the outcome of the
invocation at attempt index `a` and `times a` is `Date.now()` when that
failure is tracked.  On success the plain operation-name key is deleted
from `errorCounts`; on failure the typed error detail is tracked under the
composite key, non-retryable classifications re-raise at once, and the
last attempt breaks out and re-raises the last error. -/
def retryLoop {α : Type} (op : Nat → Except JSError α) (times : Nat → Int)
    (opName : String) : Nat → Nat → Nat → HandlerState → RunResult α
  | remaining, attempt, calls, s =>
    match op attempt with
    | Except.ok v =>
      RunResult.mk (RunOutcome.ok v) { s with errorCounts := delKey s.errorCounts opName }
        (calls + 1)
    | Except.error e =>
      let s1 := trackError s opName
        (TrackedError.mk (some (getErrorType e)) e.message e.status) (times attempt)
      if shouldNotRetry e then RunResult.mk (RunOutcome.failed e) s1 (calls + 1)
      else
        match remaining with
        | 0 => RunResult.mk (RunOutcome.failed e) s1 (calls + 1)
        | Nat.succ r => retryLoop op times opName r (attempt + 1) (calls + 1) s1

/-- The tail of `retryOperation` after the circuit-breaker block: the
rate-limit fast-fail check followed by the attempt loop. -/
def retryAfterBreaker {α : Type} (op : Nat → Except JSError α) (times : Nat → Int)
    (now : Int) (options : RetryOptions) (s : HandlerState) : RunResult α :=
  if isRateLimited s options.operationName now then
    RunResult.mk RunOutcome.rateLimited s 0
  else retryLoop op times options.operationName options.maxRetries 0 0 s

/-- `retryOperation(operation, options)`: circuit-breaker check on the
entry stored at the plain `operationName` key (fast-fail while the
cooldown has not elapsed, delete the entry and proceed once it has), then
the rate-limit check, then the attempt loop.  `now` is `Date.now()` during
the pre-loop checks. -/
def retryOperation {α : Type} (op : Nat → Except JSError α) (times : Nat → Int)
    (now : Int) (options : RetryOptions) (s : HandlerState) : RunResult α :=
  let key := options.operationName
  match lookupKey s.errorCounts key with
  | some tracking =>
    if options.circuitBreakerThreshold ≤ tracking.count then
      if now - tracking.lastError < options.circuitBreakerTimeout then
        RunResult.mk RunOutcome.circuitOpen s 0
      else
        retryAfterBreaker op times now options
          { s with errorCounts := delKey s.errorCounts key }
    else retryAfterBreaker op times now options s
  | none => retryAfterBreaker op times now options s

/-- Character-level split on `'_'` (JS `key.split('_')` with a one-char
separator). -/
def splitUnd : List Char → List (List Char)
  | [] => [[]]
  | c :: rest =>
    if c = '_' then [] :: splitUnd rest
    else
      match splitUnd rest with
      | [] => [[c]]
      | h :: t => (c :: h) :: t

/-- `key.split('_')[0]`: the segment before the first underscore (always
present, since `split` never returns an empty array). -/
def keyOperation (key : String) : String := String.mk ((splitUnd key.data).headD [])

/-- `key.split('_')[1]`: the second segment; an absent element is the JS
`undefined`, which turns into the property name "undefined" when used as
an object key. -/
def keyType (key : String) : String :=
  match (splitUnd key.data).get? 1 with
  | some part => String.mk part
  | none => "undefined"

/-- One entry of `getErrorStats().recentErrors`. -/
structure RecentError where
  operation : String
  type : String
  message : Option String
  timestamp : Int
  count : Nat
deriving DecidableEq

/-- The object returned by `getErrorStats`. -/
structure ErrorStats where
  totalErrors : Nat
  errorsByType : List (String × Nat)
  errorsByOperation : List (String × Nat)
  recentErrors : List RecentError
deriving DecidableEq

/-- `stats.m[k] = (stats.m[k] || 0) + n` on a JS object modelled as an
association list. -/
def bumpCount (m : List (String × Nat)) (k : String) (n : Nat) : List (String × Nat) :=
  match lookupKey m k with
  | none => setKey m k n
  | some c => setKey m k (c + n)

/-- `getErrorStats()` at time `now`: fold over `errorCounts` accumulating
the total and the per-type / per-operation groups keyed by the first two
`'_'`-separated segments of the composite key, then the `lastErrors`
entries of the last hour. -/
def getErrorStats (s : HandlerState) (now : Int) : ErrorStats :=
  let base := s.errorCounts.foldl
    (fun acc p =>
      { acc with
        totalErrors := acc.totalErrors + p.2.count,
        errorsByType := bumpCount acc.errorsByType (keyType p.1) p.2.count,
        errorsByOperation := bumpCount acc.errorsByOperation (keyOperation p.1) p.2.count })
    (ErrorStats.mk 0 [] [] [])
  let oneHourAgo := now - 3600000
  let fresh := s.lastErrors.filter fun p => decide (oneHourAgo < p.2.timestamp)
  let recent := fresh.map fun p =>
    RecentError.mk (keyOperation p.1) (keyType p.1) p.2.error.message p.2.timestamp p.2.count
  { base with recentErrors := recent }

/-- `clearErrors(operation = null)`: with a truthy operation name, iterate
over the keys of `errorCounts` and delete, from both `errorCounts` and
`lastErrors`, those that start with the name (so a `lastErrors` key is
deleted only if it is also a current `errorCounts` key); with no argument
— or a falsy one such as the empty string — clear both maps entirely.
`rateLimits` is never touched. -/
def clearErrors (s : HandlerState) (operation : Option String) : HandlerState :=
  match operation with
  | some op =>
    if op = "" then { s with errorCounts := [], lastErrors := [] }
    else
      { s with
        errorCounts := dropKeysWith (fun k => strStartsWith k op) s.errorCounts,
        lastErrors := dropKeysWith
          (fun k => strStartsWith k op && (lookupKey s.errorCounts k).isSome) s.lastErrors }
  | none => { s with errorCounts := [], lastErrors := [] }

/-- One entry of the object returned by `getRateLimitStatus`. -/
structure RateLimitStatus where
  count : Nat
  maxRequests : Nat
  resetTime : Int
  timeUntilReset : Int
  isLimited : Bool
deriving DecidableEq

/-- The status record built for one tracked window: here `isLimited`
additionally requires `limit.count >= limit.maxRequests`, unlike
`isRateLimited`. -/
def mkStatus (limit : RateLimitEntry) (now : Int) : RateLimitStatus :=
  RateLimitStatus.mk limit.count limit.maxRequests limit.resetTime
    (max 0 (limit.resetTime - now))
    (decide (now < limit.resetTime) && decide (limit.maxRequests ≤ limit.count))

/-- `getRateLimitStatus()` at time `now`. -/
def getRateLimitStatus (s : HandlerState) (now : Int) : List (String × RateLimitStatus) :=
  s.rateLimits.map fun p => (p.1, mkStatus p.2 now)

/-- Failure count for an operation name summed across its error-kind
buckets, i.e. over the composite keys of the form `name ++ "_" ++ kind`
(the quantity the specification's circuit-breaker check reads). -/
def sumCountsFor (s : HandlerState) (operation : String) : Nat :=
  (s.errorCounts.filter fun p => strStartsWith p.1 (operation ++ "_")).foldl
    (fun acc p => acc + p.2.count) 0

/-! ## Association-list map lemmas -/

theorem lookupKey_setKey_self {α : Type} (m : List (String × α)) (k : String) (v : α) :
    lookupKey (setKey m k v) k = some v := by
  induction m with
  | nil => simp [setKey, lookupKey]
  | cons p rest ih =>
    by_cases h : p.1 = k
    · simp [setKey, h, lookupKey]
    · simp [setKey, h, lookupKey, ih]

theorem lookupKey_setKey_ne {α : Type} (m : List (String × α)) (k : String) (v : α)
    (k2 : String) (h : k2 ≠ k) : lookupKey (setKey m k v) k2 = lookupKey m k2 := by
  have h2 : ¬(k = k2) := fun hh => h hh.symm
  induction m with
  | nil => simp [setKey, lookupKey, h2]
  | cons p rest ih =>
    by_cases hp : p.1 = k
    · subst hp
      simp [setKey, lookupKey, h2]
    · simp [setKey, hp, lookupKey, ih]

theorem lookupKey_delKey_self {α : Type} (m : List (String × α)) (k : String) :
    lookupKey (delKey m k) k = none := by
  induction m with
  | nil => simp [delKey, lookupKey]
  | cons p rest ih =>
    by_cases h : p.1 = k
    · simp [delKey, h, ih]
    · simp [delKey, h, lookupKey, ih]

theorem lookupKey_delKey_ne {α : Type} (m : List (String × α)) (k : String)
    (k2 : String) (h : k2 ≠ k) : lookupKey (delKey m k) k2 = lookupKey m k2 := by
  have h2 : ¬(k = k2) := fun hh => h hh.symm
  induction m with
  | nil => simp [delKey]
  | cons p rest ih =>
    by_cases hp : p.1 = k
    · subst hp
      simp [delKey, lookupKey, h2, ih]
    · simp [delKey, hp, lookupKey, ih]

theorem lookupKey_dropKeysWith {α : Type} (q : String → Bool) (m : List (String × α))
    (k : String) :
    lookupKey (dropKeysWith q m) k = if q k then none else lookupKey m k := by
  induction m with
  | nil => simp [dropKeysWith, lookupKey]
  | cons p rest ih =>
    by_cases hq : q p.1
    · by_cases hk : p.1 = k
      · subst hk
        simp [dropKeysWith, hq, lookupKey, ih]
      · simp [dropKeysWith, hq, lookupKey, hk, ih]
    · by_cases hk : p.1 = k
      · subst hk
        simp [dropKeysWith, hq, lookupKey]
      · simp [dropKeysWith, hq, lookupKey, hk, ih]

theorem lookupKey_mapVals {β γ : Type} (f : β → γ) (m : List (String × β)) (k : String) :
    lookupKey (m.map fun p => (p.1, f p.2)) k = Option.map f (lookupKey m k) := by
  induction m with
  | nil => simp [lookupKey]
  | cons p rest ih =>
    by_cases hk : p.1 = k
    · simp [lookupKey, hk]
    · simp [lookupKey, hk, ih]

/-! ## String-prefix lemmas -/

theorem charsStart_self (l : List Char) : charsStart l l = true := by
  induction l with
  | nil => rfl
  | cons a t ih => simp [charsStart, ih]

theorem charsStart_append (l m : List Char) : charsStart (l ++ m) l = true := by
  induction l with
  | nil => simp [charsStart]
  | cons a t ih => simp [charsStart, ih]

theorem strStartsWith_self (s : String) : strStartsWith s s = true := by
  simp [strStartsWith, charsStart_self]

theorem strStartsWith_trackKey (opName ty : String) :
    strStartsWith (trackKey opName ty) opName = true := by
  obtain ⟨l⟩ := opName
  obtain ⟨t⟩ := ty
  show charsStart ((l ++ ['_']) ++ t) l = true
  rw [List.append_assoc]
  exact charsStart_append l (['_'] ++ t)

theorem ne_of_strStartsWith_false {k s : String} (h : strStartsWith k s = false) : k ≠ s := by
  intro hk
  rw [hk, strStartsWith_self] at h
  simp at h

theorem ne_trackKey_of_strStartsWith_false {k opName : String} (ty : String)
    (h : strStartsWith k opName = false) : k ≠ trackKey opName ty := by
  intro hk
  rw [hk, strStartsWith_trackKey] at h
  simp at h

/-! ## Classification lemmas -/

theorem getErrorType_ne_authentication (e : JSError) : getErrorType e ≠ "authentication" := by
  unfold getErrorType
  split_ifs <;> decide

theorem shouldNotRetry_eq_false (e : JSError) (h1 : getErrorType e ≠ "permission")
    (h2 : getErrorType e ≠ "not_found") : shouldNotRetry e = false := by
  have h0 := getErrorType_ne_authentication e
  simp [shouldNotRetry, h0, h1, h2]

/-! ## Attempt-loop lemmas -/

theorem retryLoop_calls_ge {α : Type} (op : Nat → Except JSError α) (times : Nat → Int)
    (opName : String) :
    ∀ (remaining attempt calls : Nat) (s : HandlerState),
      calls + 1 ≤ (retryLoop op times opName remaining attempt calls s).calls := by
  intro remaining
  induction remaining with
  | zero =>
    intro attempt calls s
    rw [retryLoop]
    cases h : op attempt with
    | ok v => simp
    | error e => by_cases hr : shouldNotRetry e = true <;> simp [hr]
  | succ r ih =>
    intro attempt calls s
    rw [retryLoop]
    cases h : op attempt with
    | ok v => simp
    | error e =>
      by_cases hr : shouldNotRetry e = true
      · simp [hr]
      · simp only [hr, if_false, Bool.false_eq_true]
        have hrec := ih (attempt + 1) (calls + 1)
          (trackError s opName (TrackedError.mk (some (getErrorType e)) e.message e.status)
            (times attempt))
        omega

theorem retryLoop_allFail {α : Type} (op : Nat → Except JSError α) (times : Nat → Int)
    (opName : String) (e : Nat → JSError)
    (hop : ∀ a, op a = Except.error (e a))
    (hretry : ∀ a, shouldNotRetry (e a) = false) :
    ∀ (remaining attempt calls : Nat) (s : HandlerState),
      ∃ s2, retryLoop op times opName remaining attempt calls s =
        RunResult.mk (RunOutcome.failed (e (attempt + remaining))) s2 (calls + remaining + 1) := by
  intro remaining
  induction remaining with
  | zero =>
    intro attempt calls s
    rw [retryLoop, hop attempt]
    refine ⟨trackError s opName
      (TrackedError.mk (some (getErrorType (e attempt))) (e attempt).message
        (e attempt).status) (times attempt), ?_⟩
    simp [hretry attempt]
  | succ r ih =>
    intro attempt calls s
    rw [retryLoop, hop attempt]
    obtain ⟨s2, hs2⟩ := ih (attempt + 1) (calls + 1)
      (trackError s opName
        (TrackedError.mk (some (getErrorType (e attempt))) (e attempt).message
          (e attempt).status) (times attempt))
    refine ⟨s2, ?_⟩
    simp only [hretry attempt, Bool.false_eq_true, if_false]
    rw [hs2]
    have h1 : attempt + 1 + r = attempt + (r + 1) := by omega
    have h2 : calls + 1 + r + 1 = calls + (r + 1) + 1 := by omega
    rw [h1, h2]

theorem retryLoop_rateLimits {α : Type} (op : Nat → Except JSError α) (times : Nat → Int)
    (opName : String) :
    ∀ (remaining attempt calls : Nat) (s : HandlerState),
      (retryLoop op times opName remaining attempt calls s).state.rateLimits =
        s.rateLimits := by
  intro remaining
  induction remaining with
  | zero =>
    intro attempt calls s
    rw [retryLoop]
    cases h : op attempt with
    | ok v => simp
    | error e => by_cases hr : shouldNotRetry e = true <;> simp [hr, trackError]
  | succ r ih =>
    intro attempt calls s
    rw [retryLoop]
    cases h : op attempt with
    | ok v => simp
    | error e =>
      by_cases hr : shouldNotRetry e = true
      · simp [hr, trackError]
      · simp only [hr, if_false, Bool.false_eq_true]
        rw [ih]
        simp [trackError]

theorem retryLoop_frame {α : Type} (op : Nat → Except JSError α) (times : Nat → Int)
    (opName : String) (k : String) (hk : strStartsWith k opName = false) :
    ∀ (remaining attempt calls : Nat) (s : HandlerState),
      lookupKey (retryLoop op times opName remaining attempt calls s).state.errorCounts k =
        lookupKey s.errorCounts k ∧
      lookupKey (retryLoop op times opName remaining attempt calls s).state.lastErrors k =
        lookupKey s.lastErrors k := by
  have hne := ne_of_strStartsWith_false hk
  intro remaining
  induction remaining with
  | zero =>
    intro attempt calls s
    rw [retryLoop]
    cases h : op attempt with
    | ok v => simp [lookupKey_delKey_ne _ _ _ hne]
    | error e =>
      by_cases hr : shouldNotRetry e = true <;>
        simp [hr, trackError, lookupKey_setKey_ne _ _ _ _
          (ne_trackKey_of_strStartsWith_false _ hk)]
  | succ r ih =>
    intro attempt calls s
    rw [retryLoop]
    cases h : op attempt with
    | ok v => simp [lookupKey_delKey_ne _ _ _ hne]
    | error e =>
      by_cases hr : shouldNotRetry e = true
      · simp [hr, trackError, lookupKey_setKey_ne _ _ _ _
          (ne_trackKey_of_strStartsWith_false _ hk)]
      · simp only [hr, if_false, Bool.false_eq_true]
        have hrec := ih (attempt + 1) (calls + 1)
          (trackError s opName (TrackedError.mk (some (getErrorType e)) e.message e.status)
            (times attempt))
        rw [hrec.1, hrec.2]
        simp [trackError, lookupKey_setKey_ne _ _ _ _
          (ne_trackKey_of_strStartsWith_false _ hk)]

theorem retryLoop_ok_plain {α : Type} (op : Nat → Except JSError α) (times : Nat → Int)
    (opName : String) :
    ∀ (remaining attempt calls : Nat) (s : HandlerState) (v : α),
      (retryLoop op times opName remaining attempt calls s).outcome = RunOutcome.ok v →
      lookupKey (retryLoop op times opName remaining attempt calls s).state.errorCounts
        opName = none := by
  intro remaining
  induction remaining with
  | zero =>
    intro attempt calls s v hok
    rw [retryLoop] at hok ⊢
    cases h : op attempt with
    | ok w => simp [lookupKey_delKey_self]
    | error e =>
      rw [h] at hok
      by_cases hr : shouldNotRetry e = true <;> simp [hr] at hok
  | succ r ih =>
    intro attempt calls s v hok
    rw [retryLoop] at hok ⊢
    cases h : op attempt with
    | ok w => simp [lookupKey_delKey_self]
    | error e =>
      rw [h] at hok
      by_cases hr : shouldNotRetry e = true
      · simp [hr] at hok
      · simp only [hr, if_false, Bool.false_eq_true] at hok ⊢
        exact ih (attempt + 1) (calls + 1) _ v hok

/-! ## Concrete errors and states used by the claim instances -/

/-- An error classified `network` (retryable). -/
def netErr : JSError := ⟨some "network down", none⟩

/-- An error classified `auth` via its message text. -/
def authErr : JSError := ⟨some "authentication failed", none⟩

/-- An error classified `general`. -/
def genErr : JSError := ⟨some "boom", none⟩

/-- A state in which the operation "op" has five recorded failures, all in
its `network` bucket (composite key), the most recent at time 1000. -/
def opFailState : HandlerState := ⟨[("op_network", ⟨5, 0, 1000⟩)], [], []⟩

/-- A state holding an entry at exactly the plain key "op" with count 5 and
last failure at time 1000. -/
def plainFailState : HandlerState := ⟨[("op", ⟨5, 0, 1000⟩)], [], []⟩

/-- Claim C1, counterexample: the operation "op" has an accumulated failure
count of 5 ≥ circuitBreakerThreshold = 5 summed across its error-kind
buckets, and the last failure was 500 ms ago, far less than
circuitBreakerTimeoutMs = 60000 — yet `execute` does not raise CircuitOpen
and invokes the operation (once, successfully), because the circuit check
reads the plain key "op" while failures are recorded under composite keys
such as "op_network". -/
theorem C1_counterexample :
    sumCountsFor opFailState "op" = 5 ∧
    defaultOptions.circuitBreakerThreshold ≤ 5 ∧
    (1500 : Int) - 1000 < defaultOptions.circuitBreakerTimeout ∧
    (retryOperation (fun _ => (Except.ok 7 : Except JSError Nat)) (fun _ => 1500) 1500
        { defaultOptions with operationName := "op" } opFailState).outcome ≠
      RunOutcome.circuitOpen ∧
    (retryOperation (fun _ => (Except.ok 7 : Except JSError Nat)) (fun _ => 1500) 1500
        { defaultOptions with operationName := "op" } opFailState).calls = 1 := by
  refine ⟨by decide, by decide, by decide, by decide, by decide⟩

/-- Claim C1 (amended): the circuit check reads only the tracking entry
stored at exactly the plain operation-name key (which the executor's own
failure tracking never writes, since it uses composite keys).  When such an
entry has count ≥ circuitBreakerThreshold: if the last recorded failure is
less than circuitBreakerTimeoutMs old, `execute` fast-fails with
CircuitOpen, the state untouched and the operation not invoked; once the
timeout has elapsed, the entry is deleted and — if the operation is not
rate limited — the normal attempt loop runs, invoking the operation at
least once (half-open). -/
theorem C1_circuit_plain_key {α : Type} (op : Nat → Except JSError α) (times : Nat → Int)
    (now : Int) (options : RetryOptions) (s : HandlerState) (tracking : ErrorTracking)
    (hlk : lookupKey s.errorCounts options.operationName = some tracking)
    (hcnt : options.circuitBreakerThreshold ≤ tracking.count) :
    (now - tracking.lastError < options.circuitBreakerTimeout →
      retryOperation op times now options s = RunResult.mk RunOutcome.circuitOpen s 0) ∧
    (options.circuitBreakerTimeout ≤ now - tracking.lastError →
      lookupKey (delKey s.errorCounts options.operationName) options.operationName = none ∧
      (isRateLimited s options.operationName now = false →
        retryOperation op times now options s =
          retryLoop op times options.operationName options.maxRetries 0 0
            { s with errorCounts := delKey s.errorCounts options.operationName } ∧
        1 ≤ (retryOperation op times now options s).calls)) := by
  constructor
  · intro hlt
    simp only [retryOperation]
    rw [hlk]
    simp only []
    rw [if_pos hcnt, if_pos hlt]
  · intro hge
    refine ⟨lookupKey_delKey_self _ _, fun hrl => ?_⟩
    have heq : retryOperation op times now options s =
        retryLoop op times options.operationName options.maxRetries 0 0
          { s with errorCounts := delKey s.errorCounts options.operationName } := by
      simp only [retryOperation]
      rw [hlk]
      simp only []
      rw [if_pos hcnt, if_neg (not_lt.mpr hge)]
      simp only [retryAfterBreaker]
      rw [show isRateLimited
          { s with errorCounts := delKey s.errorCounts options.operationName }
          options.operationName now = isRateLimited s options.operationName now from rfl]
      rw [hrl]
      simp
    refine ⟨heq, ?_⟩
    rw [heq]
    simpa using retryLoop_calls_ge op times options.operationName options.maxRetries 0 0
      { s with errorCounts := delKey s.errorCounts options.operationName }

/-- Claim C1 witness: with an entry at exactly the plain key "op" (count 5,
last failure at 1000) and the default threshold 5, a call at time 1500
fast-fails with CircuitOpen, leaving the state unchanged and never
invoking the operation. -/
theorem C1_circuit_plain_key_witness :
    retryOperation (fun _ => (Except.ok 7 : Except JSError Nat)) (fun _ => 1500) 1500
      { defaultOptions with operationName := "op" } plainFailState =
      RunResult.mk RunOutcome.circuitOpen plainFailState 0 :=
  (C1_circuit_plain_key _ _ 1500 _ plainFailState ⟨5, 0, 1000⟩ (by decide) (by decide)).1
    (by decide)

/-- Claim C2, code bug: an error whose message contains "authentication"
classifies as "auth", but the source's no-retry list contains the string
"authentication" — which `getErrorType` can never return — so the error is
retried like any other: with maxRetries = 3 the operation is invoked 4
times before the original error is re-raised, where the claim (and the
code's own no-retry list) intend exactly one attempt. -/
theorem C2_auth_is_retried :
    getErrorType authErr = "auth" ∧
    shouldNotRetry authErr = false ∧
    (retryOperation (fun _ => (Except.error authErr : Except JSError Nat)) (fun i => (i : Int))
        0 { defaultOptions with operationName := "op" } emptyState).calls = 4 ∧
    (retryOperation (fun _ => (Except.error authErr : Except JSError Nat)) (fun i => (i : Int))
        0 { defaultOptions with operationName := "op" } emptyState).outcome =
      RunOutcome.failed authErr := by
  refine ⟨by decide, by decide, by decide, by decide⟩

/-- Claim C3, counterexample: an operation under the name "op" fails once
with a network-classified error and then succeeds; the call returns the
success value, yet the failure history recorded during the call — the
`errorCounts` entry and the `lastErrors` entry under the composite key
"op_network" — is still present afterwards, because the success path only
deletes the entry at the plain key "op". -/
theorem C3_counterexample :
    (retryOperation (fun a => if a = 0 then Except.error netErr else (Except.ok 42 : Except JSError Nat))
        (fun _ => 100) 0 { defaultOptions with operationName := "op" } emptyState).outcome =
      RunOutcome.ok 42 ∧
    lookupKey (retryOperation
        (fun a => if a = 0 then Except.error netErr else (Except.ok 42 : Except JSError Nat))
        (fun _ => 100) 0 { defaultOptions with operationName := "op" } emptyState).state.errorCounts
      "op_network" = some ⟨1, 100, 100⟩ ∧
    lookupKey (retryOperation
        (fun a => if a = 0 then Except.error netErr else (Except.ok 42 : Except JSError Nat))
        (fun _ => 100) 0 { defaultOptions with operationName := "op" } emptyState).state.lastErrors
      "op_network" = some ⟨⟨some "network", some "network down", none⟩, 100, 1⟩ := by
  refine ⟨by decide, by decide, by decide⟩

/-- Helper for C3: when the rate-limit/attempt phase returns success, the
plain operation-name key is absent from `errorCounts`, the rate-limit map
is untouched, and every key that does not start with the operation name is
untouched in both `errorCounts` and `lastErrors`. -/
theorem retryAfterBreaker_ok_props {α : Type} (op : Nat → Except JSError α)
    (times : Nat → Int) (now : Int) (options : RetryOptions) (s0 : HandlerState) (v : α)
    (hok : (retryAfterBreaker op times now options s0).outcome = RunOutcome.ok v) :
    lookupKey (retryAfterBreaker op times now options s0).state.errorCounts
      options.operationName = none ∧
    (retryAfterBreaker op times now options s0).state.rateLimits = s0.rateLimits ∧
    ∀ k, strStartsWith k options.operationName = false →
      lookupKey (retryAfterBreaker op times now options s0).state.errorCounts k =
        lookupKey s0.errorCounts k ∧
      lookupKey (retryAfterBreaker op times now options s0).state.lastErrors k =
        lookupKey s0.lastErrors k := by
  by_cases hrl : isRateLimited s0 options.operationName now = true
  · simp [retryAfterBreaker, hrl] at hok
  · have hrl2 : isRateLimited s0 options.operationName now = false := by
      revert hrl
      cases isRateLimited s0 options.operationName now <;> simp
    simp only [retryAfterBreaker, hrl2, Bool.false_eq_true, if_false] at hok ⊢
    exact ⟨retryLoop_ok_plain op times options.operationName options.maxRetries 0 0 s0 v hok,
      retryLoop_rateLimits op times options.operationName options.maxRetries 0 0 s0,
      fun k hk => retryLoop_frame op times options.operationName k hk options.maxRetries 0 0 s0⟩

/-- Claim C3 (amended): when `execute` returns successfully, only the
`errorCounts` entry stored at the plain operation-name key is guaranteed
absent afterwards; the rate-limit windows are untouched, and tracking
entries under keys that do not start with the operation name — in both
`errorCounts` and `lastErrors` — are exactly as before the call.  Failure
history recorded under the composite operation_classification keys (and
all `lastErrors` entries) is not cleared by success. -/
theorem C3_success_clears_only_plain_key {α : Type} (op : Nat → Except JSError α)
    (times : Nat → Int) (now : Int) (options : RetryOptions) (s : HandlerState) (v : α)
    (hok : (retryOperation op times now options s).outcome = RunOutcome.ok v) :
    lookupKey (retryOperation op times now options s).state.errorCounts
      options.operationName = none ∧
    (retryOperation op times now options s).state.rateLimits = s.rateLimits ∧
    ∀ k, strStartsWith k options.operationName = false →
      lookupKey (retryOperation op times now options s).state.errorCounts k =
        lookupKey s.errorCounts k ∧
      lookupKey (retryOperation op times now options s).state.lastErrors k =
        lookupKey s.lastErrors k := by
  rcases hlk : lookupKey s.errorCounts options.operationName with _ | tracking
  · have heq : retryOperation op times now options s =
        retryAfterBreaker op times now options s := by
      simp only [retryOperation]
      rw [hlk]
    rw [heq] at hok ⊢
    exact retryAfterBreaker_ok_props op times now options s v hok
  · by_cases hcnt : options.circuitBreakerThreshold ≤ tracking.count
    · by_cases hlt : now - tracking.lastError < options.circuitBreakerTimeout
      · have heq : retryOperation op times now options s =
            RunResult.mk RunOutcome.circuitOpen s 0 := by
          simp only [retryOperation]
          rw [hlk]
          simp only []
          rw [if_pos hcnt, if_pos hlt]
        rw [heq] at hok
        simp at hok
      · have heq : retryOperation op times now options s =
            retryAfterBreaker op times now options
              { s with errorCounts := delKey s.errorCounts options.operationName } := by
          simp only [retryOperation]
          rw [hlk]
          simp only []
          rw [if_pos hcnt, if_neg hlt]
        rw [heq] at hok ⊢
        have hprops := retryAfterBreaker_ok_props op times now options
          { s with errorCounts := delKey s.errorCounts options.operationName } v hok
        refine ⟨hprops.1, hprops.2.1, fun k hk => ?_⟩
        have hfr := hprops.2.2 k hk
        rw [hfr.1, hfr.2]
        exact ⟨lookupKey_delKey_ne _ _ _ (ne_of_strStartsWith_false hk), rfl⟩
    · have heq : retryOperation op times now options s =
          retryAfterBreaker op times now options s := by
        simp only [retryOperation]
        rw [hlk]
        simp only []
        rw [if_neg hcnt]
      rw [heq] at hok ⊢
      exact retryAfterBreaker_ok_props op times now options s v hok

/-- Claim C3 witness: starting from the state that already holds the five
"op_network" failures, a successful call under the name "op" leaves the
plain key absent, the rate limits untouched, and the unrelated key
"other_general" untouched. -/
theorem C3_success_clears_only_plain_key_witness :
    lookupKey (retryOperation (fun _ => (Except.ok 7 : Except JSError Nat)) (fun _ => 1500)
        1500 { defaultOptions with operationName := "op" } opFailState).state.errorCounts
      "op" = none ∧
    (retryOperation (fun _ => (Except.ok 7 : Except JSError Nat)) (fun _ => 1500) 1500
        { defaultOptions with operationName := "op" } opFailState).state.rateLimits =
      opFailState.rateLimits :=
  ⟨(C3_success_clears_only_plain_key _ _ 1500 _ opFailState 7 (by decide)).1,
   (C3_success_clears_only_plain_key _ _ 1500 _ opFailState 7 (by decide)).2.1⟩

/-- Claim C4: an operation that fails at every attempt with errors whose
classification is never auth, permission or not_found — hence retryable —
is invoked exactly maxRetries + 1 times (given that the circuit-breaker
entry at the plain key is absent and the operation is not rate limited,
and with a cooperative clock that lets every backoff delay elapse), after
which the error of the last attempt is raised. -/
theorem C4_retryable_exhausts_attempts {α : Type} (op : Nat → Except JSError α)
    (times : Nat → Int) (now : Int) (options : RetryOptions) (s : HandlerState)
    (e : Nat → JSError)
    (hop : ∀ a, op a = Except.error (e a))
    (hcls : ∀ a, getErrorType (e a) ≠ "auth" ∧ getErrorType (e a) ≠ "permission" ∧
      getErrorType (e a) ≠ "not_found")
    (hcb : lookupKey s.errorCounts options.operationName = none)
    (hrl : isRateLimited s options.operationName now = false) :
    (retryOperation op times now options s).calls = options.maxRetries + 1 ∧
    (retryOperation op times now options s).outcome =
      RunOutcome.failed (e options.maxRetries) := by
  have hretry : ∀ a, shouldNotRetry (e a) = false := fun a =>
    shouldNotRetry_eq_false (e a) (hcls a).2.1 (hcls a).2.2
  obtain ⟨s2, hs2⟩ := retryLoop_allFail op times options.operationName e hop hretry
    options.maxRetries 0 0 s
  have heq : retryOperation op times now options s =
      retryLoop op times options.operationName options.maxRetries 0 0 s := by
    simp only [retryOperation]
    rw [hcb]
    simp only [retryAfterBreaker]
    rw [hrl]
    simp
  rw [heq, hs2]
  constructor
  · simp
  · simp

/-- Claim C4 witness: an operation that always fails with the
network-classified error, run with the default options (maxRetries = 3)
under the name "op" from the empty state, is invoked 4 times and the call
raises that error. -/
theorem C4_retryable_exhausts_attempts_witness :
    (retryOperation (fun _ => (Except.error netErr : Except JSError Nat)) (fun i => (i : Int))
        0 { defaultOptions with operationName := "op" } emptyState).calls = 4 ∧
    (retryOperation (fun _ => (Except.error netErr : Except JSError Nat)) (fun i => (i : Int))
        0 { defaultOptions with operationName := "op" } emptyState).outcome =
      RunOutcome.failed netErr :=
  C4_retryable_exhausts_attempts _ _ 0 _ emptyState (fun _ => netErr) (fun _ => rfl)
    (fun _ => (by decide : getErrorType netErr ≠ "auth" ∧ getErrorType netErr ≠ "permission" ∧
      getErrorType netErr ≠ "not_found")) (by decide) (by decide)

/-- The four-call scenario of claim C5: `applyRateLimit("x", 1000, 2)` at
times t1, t2, t3, t4, each call starting from the state the previous one
produced (from the empty state), collecting the four boolean results and
the final state. -/
def rateSeq (t1 t2 t3 t4 : Int) : Bool × Bool × Bool × Bool × HandlerState :=
  let r1 := applyRateLimit emptyState "x" 1000 2 t1
  let r2 := applyRateLimit r1.2 "x" 1000 2 t2
  let r3 := applyRateLimit r2.2 "x" 1000 2 t3
  let r4 := applyRateLimit r3.2 "x" 1000 2 t4
  (r1.1, r2.1, r3.1, r4.1, r4.2)

/-- Claim C5: with windowMs = 1000 and maxRequests = 2, three calls for the
same operation name within the window return false, false, true, and a
fourth call at or after the window's reset time resets the window (count 1,
reset time t4 + 1000) and returns false. -/
theorem C5_applyRateLimit_sequence (t1 t2 t3 t4 : Int)
    (h2 : t2 < t1 + 1000) (h3 : t3 < t1 + 1000) (h4 : t1 + 1000 ≤ t4) :
    rateSeq t1 t2 t3 t4 =
      (false, false, true, false, ⟨[], [("x", ⟨1, t4 + 1000, 1000, 2⟩)], []⟩) := by
  have hn2 : ¬(t1 + 1000 ≤ t2) := by omega
  have hn3 : ¬(t1 + 1000 ≤ t3) := by omega
  simp [rateSeq, applyRateLimit, emptyState, lookupKey, setKey, hn2, hn3, h4]

/-- Claim C5 witness: the scenario at the concrete times 0, 300, 600, 1000. -/
theorem C5_applyRateLimit_sequence_witness :
    rateSeq 0 300 600 1000 =
      (false, false, true, false, ⟨[], [("x", ⟨1, 2000, 1000, 2⟩)], []⟩) :=
  C5_applyRateLimit_sequence 0 300 600 1000 (by norm_num) (by norm_num) (by norm_num)

/-- Options configuring baseDelayMs = 2000 (other fields at the source
defaults). -/
def c6opts : RetryOptions := { defaultOptions with baseDelay := 2000 }

/-- Claim C6, counterexample: with baseDelayMs configured to 2000, attempt
index 0, zero jitter and no failure history, the computed backoff delay is
1000 — strictly below the claimed lower bound baseDelayMs * 2^0 scaled by
the (here trivial) error-count factor — because `getRetryDelay` hardcodes
a base of 1000 ms and the configured baseDelayMs option is never passed to
it. -/
theorem C6_counterexample :
    c6opts.baseDelay = 2000 ∧
    retryDelayOfOptions c6opts emptyState 0 0 = 1000 ∧
    retryDelayOfOptions c6opts emptyState 0 0 <
      c6opts.baseDelay * 2 ^ 0 *
        (1 + min ((errorCountAt emptyState c6opts.operationName : ℚ)) 5 * (1 / 10)) := by
  refine ⟨rfl, ?_, ?_⟩
  · norm_num [retryDelayOfOptions, getRetryDelay, errorCountAt, lookupKey, emptyState,
      c6opts, defaultOptions]
  · norm_num [retryDelayOfOptions, getRetryDelay, errorCountAt, lookupKey, emptyState,
      c6opts, defaultOptions]

/-- Claim C6 (amended): the base of the exponential is the hardcoded
1000 ms (the configured baseDelayMs is ignored by the delay computation).
For attempt index a, jitter j ∈ [0, 1000], and scale factor
(1 + min(n, 5) * 0.1) where n is the error count stored at the plain
operation-name key, the delay computed inside the attempt loop lies
between min(1000 * 2^a, maxDelayMs) and min(1000 * 2^a + 1000, maxDelayMs)
times the scale factor, and is capped at maxDelayMs times the scale
factor. -/
theorem C6_delay_bounds (s : HandlerState) (options : RetryOptions) (a : Nat) (j : ℚ)
    (hj0 : 0 ≤ j) (hj1 : j ≤ 1000) :
    min ((1000 : ℚ) * 2 ^ a) options.maxDelay *
        (1 + min ((errorCountAt s options.operationName : ℚ)) 5 * (1 / 10)) ≤
      retryDelayOfOptions options s a j ∧
    retryDelayOfOptions options s a j ≤
      min ((1000 : ℚ) * 2 ^ a + 1000) options.maxDelay *
        (1 + min ((errorCountAt s options.operationName : ℚ)) 5 * (1 / 10)) ∧
    retryDelayOfOptions options s a j ≤
      options.maxDelay *
        (1 + min ((errorCountAt s options.operationName : ℚ)) 5 * (1 / 10)) := by
  have hn0 : (0 : ℚ) ≤ (errorCountAt s options.operationName : ℚ) := Nat.cast_nonneg _
  have hmin0 : (0 : ℚ) ≤ min ((errorCountAt s options.operationName : ℚ)) 5 :=
    le_min hn0 (by norm_num)
  have hsc : (0 : ℚ) ≤ 1 + min ((errorCountAt s options.operationName : ℚ)) 5 * (1 / 10) := by
    have := mul_nonneg hmin0 (by norm_num : (0 : ℚ) ≤ 1 / 10)
    linarith
  simp only [retryDelayOfOptions, getRetryDelay]
  refine ⟨?_, ?_, ?_⟩
  · exact mul_le_mul_of_nonneg_right (min_le_min (by linarith) le_rfl) hsc
  · exact mul_le_mul_of_nonneg_right (min_le_min (by linarith) le_rfl) hsc
  · exact mul_le_mul_of_nonneg_right (min_le_right _ _) hsc

/-- Claim C6 witness: the bounds at attempt index 1 with jitter 250 from
the empty state under the default options. -/
theorem C6_delay_bounds_witness :
    min ((1000 : ℚ) * 2 ^ 1) defaultOptions.maxDelay *
        (1 + min ((errorCountAt emptyState defaultOptions.operationName : ℚ)) 5 * (1 / 10)) ≤
      retryDelayOfOptions defaultOptions emptyState 1 250 ∧
    retryDelayOfOptions defaultOptions emptyState 1 250 ≤
      min ((1000 : ℚ) * 2 ^ 1 + 1000) defaultOptions.maxDelay *
        (1 + min ((errorCountAt emptyState defaultOptions.operationName : ℚ)) 5 * (1 / 10)) ∧
    retryDelayOfOptions defaultOptions emptyState 1 250 ≤
      defaultOptions.maxDelay *
        (1 + min ((errorCountAt emptyState defaultOptions.operationName : ℚ)) 5 * (1 / 10)) :=
  C6_delay_bounds emptyState defaultOptions 1 250 (by norm_num) (by norm_num)

/-- An error with status 401 whose message contains both "network" and
"rate limit". -/
def netRate401 : JSError := ⟨some "network rate limit", some 401⟩

/-- Claim C7, counterexample: an error with status 401 whose message
contains "network" is not always classified `network` — when the message
also contains "rate limit", the earlier substring check wins and the
classification is `rate_limit`. -/
theorem C7_counterexample :
    netRate401.status = some 401 ∧
    msgIncludes netRate401.message "network" = true ∧
    getErrorType netRate401 ≠ "network" ∧
    getErrorType netRate401 = "rate_limit" := by
  refine ⟨rfl, by decide, by decide, by decide⟩

/-- Claim C7 (amended): message-substring checks are evaluated before
status-code checks, in source order; for every error with status 401 whose
message contains "network" but not "rate limit", the classification is
`network`, not `auth`; and when no message substring matches and no status
check matches, the classification falls back to `general`. -/
theorem C7_message_precedence (e : JSError)
    (_h401 : e.status = some 401)
    (hrl : msgIncludes e.message "rate limit" = false)
    (hnet : msgIncludes e.message "network" = true) :
    getErrorType e = "network" ∧ getErrorType e ≠ "auth" := by
  have h : getErrorType e = "network" := by
    simp [getErrorType, hrl, hnet]
  exact ⟨h, by rw [h]; decide⟩

/-- Claim C7 witness: a status-401 error with message "network request
failed" classifies as `network`, not `auth`. -/
theorem C7_message_precedence_witness :
    getErrorType ⟨some "network request failed", some 401⟩ = "network" ∧
    getErrorType ⟨some "network request failed", some 401⟩ ≠ "auth" :=
  C7_message_precedence ⟨some "network request failed", some 401⟩ rfl (by decide) (by decide)

/-- Step 1 of the C8 counterexample: one failing call (classified
`general`) under the name "a" records tracking under the composite key
"a_general" in both `errorCounts` and `lastErrors`. -/
def c8step1 : RunResult Nat :=
  retryOperation (fun _ => (Except.error genErr : Except JSError Nat)) (fun _ => 5) 0
    { defaultOptions with maxRetries := 0, operationName := "a" } emptyState

/-- Step 2 of the C8 counterexample: a successful call under the name
"a_general" deletes the `errorCounts` entry at that (plain) key but leaves
the `lastErrors` entry, producing a state where "a_general" is a
`lastErrors` key but no longer an `errorCounts` key. -/
def c8step2 : RunResult Nat :=
  retryOperation (fun _ => (Except.ok 0 : Except JSError Nat)) (fun _ => 6) 6
    { defaultOptions with operationName := "a_general" } c8step1.state

/-- Claim C8, counterexample: in the state reached by the two calls above,
`clearErrors("a")` fails to delete the `lastErrors` entry whose key
"a_general" starts with "a", because the deletion loop only visits keys
still present in `errorCounts`. -/
theorem C8_counterexample :
    strStartsWith "a_general" "a" = true ∧
    lookupKey c8step2.state.errorCounts "a_general" = none ∧
    lookupKey c8step2.state.lastErrors "a_general" =
      some ⟨⟨some "general", some "boom", none⟩, 5, 1⟩ ∧
    lookupKey (clearErrors c8step2.state (some "a")).lastErrors "a_general" =
      some ⟨⟨some "general", some "boom", none⟩, 5, 1⟩ := by
  refine ⟨by decide, by decide, by decide, by decide⟩

/-- Claim C8 (amended): `clearErrors` with a non-empty operation name
deletes exactly the `errorCounts` entries whose key starts with the name,
and exactly those `lastErrors` entries whose key starts with the name and
is also currently an `errorCounts` key (other keys are untouched in both
maps); with no argument it clears all error-tracking and last-error state;
in both cases the rate-limit windows are left unchanged. -/
theorem C8_clearErrors_behavior (s : HandlerState) (name : String) (hname : name ≠ "") :
    (∀ k, strStartsWith k name = true →
      lookupKey (clearErrors s (some name)).errorCounts k = none) ∧
    (∀ k, strStartsWith k name = false →
      lookupKey (clearErrors s (some name)).errorCounts k = lookupKey s.errorCounts k ∧
      lookupKey (clearErrors s (some name)).lastErrors k = lookupKey s.lastErrors k) ∧
    (∀ k, strStartsWith k name = true → (lookupKey s.errorCounts k).isSome = true →
      lookupKey (clearErrors s (some name)).lastErrors k = none) ∧
    (∀ k, strStartsWith k name = true → lookupKey s.errorCounts k = none →
      lookupKey (clearErrors s (some name)).lastErrors k = lookupKey s.lastErrors k) ∧
    (clearErrors s (some name)).rateLimits = s.rateLimits ∧
    (clearErrors s none).errorCounts = [] ∧
    (clearErrors s none).lastErrors = [] ∧
    (clearErrors s none).rateLimits = s.rateLimits := by
  refine ⟨?_, ?_, ?_, ?_, ?_, rfl, rfl, rfl⟩
  · intro k hk
    simp [clearErrors, hname, lookupKey_dropKeysWith, hk]
  · intro k hk
    constructor
    · simp [clearErrors, hname, lookupKey_dropKeysWith, hk]
    · simp [clearErrors, hname, lookupKey_dropKeysWith, hk]
  · intro k hk hsome
    simp [clearErrors, hname, lookupKey_dropKeysWith, hk, hsome]
  · intro k hk hnone
    simp [clearErrors, hname, lookupKey_dropKeysWith, hk, hnone]
  · simp [clearErrors, hname]

/-- A state with one tracked failure bucket "a_x", one rate-limit window
and the matching last-error entry, used to witness C8. -/
def c8wState : HandlerState :=
  ⟨[("a_x", ⟨1, 0, 0⟩)], [("r", ⟨1, 5, 5, 5⟩)], [("a_x", ⟨⟨some "x", some "boom", none⟩, 0, 1⟩)]⟩

/-- Claim C8 witness: `clearErrors("a")` on that state deletes the
tracked bucket "a_x" from both maps and leaves the rate-limit window
untouched. -/
theorem C8_clearErrors_behavior_witness :
    lookupKey (clearErrors c8wState (some "a")).errorCounts "a_x" = none ∧
    lookupKey (clearErrors c8wState (some "a")).lastErrors "a_x" = none ∧
    (clearErrors c8wState (some "a")).rateLimits = c8wState.rateLimits :=
  ⟨(C8_clearErrors_behavior c8wState "a" (by decide)).1 "a_x" (by decide),
   (C8_clearErrors_behavior c8wState "a" (by decide)).2.2.1 "a_x" (by decide) (by decide),
   (C8_clearErrors_behavior c8wState "a" (by decide)).2.2.2.2.1⟩

/-- Claim C9: when an operation's tracked rate-limit window has a reset
time still in the future but a request count strictly below maxRequests
(and no circuit-breaker entry at the plain key), `isRateLimited` answers
true — so `execute` fast-fails with a RateLimited error without invoking
the operation — while `getRateLimitStatus` reports isLimited = false for
that same operation: the two limited-ness predicates disagree on such
states. -/
theorem C9_limited_predicates_disagree {α : Type} (op : Nat → Except JSError α)
    (times : Nat → Int) (now : Int) (options : RetryOptions) (s : HandlerState)
    (limit : RateLimitEntry)
    (hcb : lookupKey s.errorCounts options.operationName = none)
    (hwin : lookupKey s.rateLimits options.operationName = some limit)
    (hfuture : now < limit.resetTime)
    (hbelow : limit.count < limit.maxRequests) :
    isRateLimited s options.operationName now = true ∧
    lookupKey (getRateLimitStatus s now) options.operationName = some (mkStatus limit now) ∧
    (mkStatus limit now).isLimited = false ∧
    retryOperation op times now options s = RunResult.mk RunOutcome.rateLimited s 0 := by
  have h1 : isRateLimited s options.operationName now = true := by
    simp [isRateLimited, hwin, hfuture]
  refine ⟨h1, ?_, ?_, ?_⟩
  · rw [getRateLimitStatus, lookupKey_mapVals (fun l => mkStatus l now) s.rateLimits, hwin]
    rfl
  · simp [mkStatus, Nat.not_le.mpr hbelow]
  · simp only [retryOperation]
    rw [hcb]
    simp only [retryAfterBreaker]
    rw [h1]
    simp

/-- A state with a rate-limit window for "x" whose reset time 2000 is in
the future at time 500 and whose count 1 is below maxRequests 5. -/
def c9State : HandlerState := ⟨[], [("x", ⟨1, 2000, 1000, 5⟩)], []⟩

/-- Claim C9 witness: on that state at time 500, `isRateLimited` says true,
the status report says isLimited = false, and `execute` fast-fails with
RateLimited without invoking the operation. -/
theorem C9_limited_predicates_disagree_witness :
    isRateLimited c9State "x" 500 = true ∧
    lookupKey (getRateLimitStatus c9State 500) "x" = some (mkStatus ⟨1, 2000, 1000, 5⟩ 500) ∧
    (mkStatus ⟨1, 2000, 1000, 5⟩ 500).isLimited = false ∧
    retryOperation (fun _ => (Except.ok 1 : Except JSError Nat)) (fun _ => 0) 500
      { defaultOptions with operationName := "x" } c9State =
      RunResult.mk RunOutcome.rateLimited c9State 0 :=
  C9_limited_predicates_disagree _ _ 500 { defaultOptions with operationName := "x" }
    c9State ⟨1, 2000, 1000, 5⟩ (by decide) (by decide) (by decide) (by decide)

/-- The run of claim C10: two failing attempts with a network-classified
error under the repository's own operation name "oauth_token_exchange"
(maxRetries = 1), recording count 2 under the composite key
"oauth_token_exchange_network". -/
def c10run : RunResult Nat :=
  retryOperation (fun _ => (Except.error netErr : Except JSError Nat)) (fun i => (i : Int)) 0
    { defaultOptions with maxRetries := 1, operationName := "oauth_token_exchange" } emptyState

/-- Claim C10: `getErrorStats` splits the composite tracking key at every
underscore and takes the first two segments, so the failures of the
underscore-containing operation name "oauth_token_exchange" (classified
`network`) are attributed to the truncated operation name "oauth" and the
wrong classification "token": the stats contain no entry at all for the
real operation name or the real classification. -/
theorem C10_stats_truncate_key :
    keyOperation (trackKey "oauth_token_exchange" "network") = "oauth" ∧
    keyType (trackKey "oauth_token_exchange" "network") = "token" ∧
    lookupKey c10run.state.errorCounts "oauth_token_exchange_network" = some ⟨2, 0, 1⟩ ∧
    (getErrorStats c10run.state 0).totalErrors = 2 ∧
    lookupKey (getErrorStats c10run.state 0).errorsByOperation "oauth" = some 2 ∧
    lookupKey (getErrorStats c10run.state 0).errorsByOperation "oauth_token_exchange" = none ∧
    lookupKey (getErrorStats c10run.state 0).errorsByType "token" = some 2 ∧
    lookupKey (getErrorStats c10run.state 0).errorsByType "network" = none := by
  refine ⟨by decide, by decide, by decide, by decide, by decide, by decide, by decide, by decide⟩
